import Mathlib

/-!
Shallow embedding of the Trivia backend (src/backend/flaskr/__init__.py).

The persistence layer is modelled as in-memory lists of `Question` and
`Category` records; SQLAlchemy query primitives (`all`, `filter_by`, `get`,
`order_by`, `ilike`) become the corresponding list operations.  HTTP handlers
become pure functions from the request data and the store to a result value;
`abort(code)` becomes an `Except` error carrying the status code, and an
uncaught Python exception becomes an explicit fault outcome.  Randomness in
the quiz picker is modelled by passing the (finite prefix of the) stream of
random draws explicitly.
-/

deriving instance DecidableEq for Except

namespace Trivia

/-- A JSON scalar value, as far as the handlers inspect one: either a string
or an integer.  Python's `==` on these values is modelled by decidable
equality (a number is never equal to a string, matching Python). -/
inductive JVal where
  | str (s : String)
  | num (n : Int)
deriving DecidableEq, Repr

/-- A persisted Question row.  `models.py` is not among the sources; the field
list follows the spec's data model (§3): id, question, answer, difficulty,
category.  `difficulty` is kept as a raw JSON value because no handler ever
inspects it; `category` is the integer id of the referenced Category. -/
structure Question where
  id : Int
  question : String
  answer : String
  difficulty : JVal
  category : Int
deriving DecidableEq, Repr

/-- A persisted Category row: integer id and text label. -/
structure Category where
  id : Int
  type : String
deriving DecidableEq, Repr

/-- A formatted question, as returned to clients.  Modelled from the spec:
`Question.format` lives in the absent `models.py`; per §3 the formatted entity
carries exactly the five stored fields. -/
structure FormattedQuestion where
  id : Int
  question : String
  answer : String
  difficulty : JVal
  category : Int
deriving DecidableEq, Repr

/-- Modelled from the spec: `Question.format()` from the absent `models.py`,
the identity projection of the five stored fields into the response shape. -/
def Question.format (q : Question) : FormattedQuestion :=
  ⟨q.id, q.question, q.answer, q.difficulty, q.category⟩

/-- The four error statuses the application maps failures to
(`abort(400/404/422/500)` and the registered error handlers). -/
inductive HttpError where
  | badRequest
  | notFound
  | unprocessable
  | internal
deriving DecidableEq, Repr

/-- Numeric status code of each error, per the error handlers. -/
def HttpError.code : HttpError → Nat
  | .badRequest => 400
  | .notFound => 404
  | .unprocessable => 422
  | .internal => 500

/-- Constant `QUESTIONS_PER_PAGE` from the source. -/
def QUESTIONS_PER_PAGE : Nat := 10

/-- The `page` query parameter as the handler sees it: absent, present but
not convertible to an integer, or an integer. -/
inductive PageArg where
  | absent
  | notInt
  | int (n : Int)
deriving DecidableEq, Repr

/-- Reading `request.args.get('page', 1, type=int)`.  Werkzeug's documented
`get` semantics: when the parameter is absent, or present but the `int`
conversion fails, the default `1` is returned; otherwise the converted
integer. -/
def parsePage : PageArg → Int
  | .absent => 1
  | .notInt => 1
  | .int n => n

/-- Normalisation of one Python slice bound against a length `n` (CPython's
`slice.indices`): a negative bound counts from the end and is clamped below
at 0; a non-negative bound is clamped above at `n`. -/
def pyBound (n : Nat) (i : Int) : Nat :=
  if i < 0 then (max ((n : Int) + i) 0).toNat else min i.toNat n

/-- Python list slicing `l[start:stop]` with integer (possibly negative)
bounds and implicit step 1: both bounds are normalised by `pyBound`, then
the elements from the lower to the upper bound are taken (none when the
upper bound does not exceed the lower, matching truncated subtraction). -/
def pySlice (l : List α) (start stop : Int) : List α :=
  let s := pyBound l.length start
  let e := pyBound l.length stop
  (l.drop s).take (e - s)

/-- The helper `__get_paginated_questions(request, questions,
num_of_questions)`: read the page parameter, compute `start = (page-1)*num`,
`end = start+num`, format every question, and return the Python slice
`[start:end]`. -/
def getPaginatedQuestions (pageArg : PageArg) (questions : List Question)
    (numOfQuestions : Nat) : List FormattedQuestion :=
  let page := parsePage pageArg
  let start := (page - 1) * (numOfQuestions : Int)
  let stop := start + (numOfQuestions : Int)
  pySlice (questions.map Question.format) start stop

/-- Insertion into a list sorted by ascending `id` (helper for the model of
`Question.query.order_by(Question.id).all()`). -/
def insertById (q : Question) : List Question → List Question
  | [] => [q]
  | x :: xs => if q.id ≤ x.id then q :: x :: xs else x :: insertById q xs

/-- Model of `Question.query.order_by(Question.id).all()`: the store's rows
sorted by ascending id. -/
def sortById : List Question → List Question
  | [] => []
  | x :: xs => insertById x (sortById xs)

/-- Response shape of `GET /questions`. -/
structure QuestionsResponse where
  questions : List FormattedQuestion
  total_questions : Nat
  categories : List (Int × String)
deriving DecidableEq, Repr

/-- The `GET /questions` handler `get_questions`: order all questions by id,
take the full count, paginate, 404 on an empty page, otherwise return the
page together with the total count and the categories dictionary. -/
def get_questions (pageArg : PageArg) (qs : List Question)
    (cats : List Category) : Except HttpError QuestionsResponse :=
  let questions := sortById qs
  let total_questions := questions.length
  let current := getPaginatedQuestions pageArg questions QUESTIONS_PER_PAGE
  if current.length == 0 then
    .error .notFound
  else
    .ok ⟨current, total_questions, cats.map (fun c => (c.id, c.type))⟩

/-- The `DELETE /questions/<int:id>` handler `delete_question`:
`Question.query.get(id)` followed by `.delete()`.  When the id resolves, the
row is removed and the success message returned; when it does not,
`None.delete()` raises, the handler's `except` catches, and the request is
aborted with 422, leaving the store unchanged.  Returns the response and the
store after the request. -/
def delete_question (id : Int) (qs : List Question) :
    Except HttpError String × List Question :=
  match qs.find? (fun q => q.id == id) with
  | some _ => (.ok "Question successfully deleted", qs.filter (fun q => q.id != id))
  | none => (.error .unprocessable, qs)

/-- The JSON body of `POST /questions`: each field may be absent. -/
structure CreateBody where
  question : Option JVal
  answer : Option JVal
  difficulty : Option JVal
  category : Option JVal
deriving DecidableEq, Repr

/-- Python's `data.get(key, '')`: the field's value, or the empty string
when absent. -/
def jsonGetD (v : Option JVal) : JVal := v.getD (.str "")

/-- Fitting the validated body fields into the Question columns.  Modelled
from the spec: `models.py` and the storage engine are absent from the
sources; a body whose `question`/`answer` are not strings or whose `category`
is not an integer is treated as a persistence fault, which the handler's
`except` maps to 422 (§4.5: any persistence fault → Unprocessable). -/
def decodeFields (q a d c : JVal) : Option (String × String × JVal × Int) :=
  match q, a, c with
  | .str sq, .str sa, .num nc => some (sq, sa, d, nc)
  | _, _, _ => none

/-- The `POST /questions` handler `create_question`: read the four fields with
default `''`, abort 422 when any equals `''`, otherwise persist a new row
(the store assigns `freshId`) and return 201's success message.  Returns the
response and the store after the request. -/
def create_question (body : CreateBody) (qs : List Question) (freshId : Int) :
    Except HttpError String × List Question :=
  let question := jsonGetD body.question
  let answer := jsonGetD body.answer
  let difficulty := jsonGetD body.difficulty
  let category := jsonGetD body.category
  if question == .str "" || answer == .str "" ||
      difficulty == .str "" || category == .str "" then
    (.error .unprocessable, qs)
  else
    match decodeFields question answer difficulty category with
    | some (sq, sa, d, nc) =>
        (.ok "Question successfully created!", qs ++ [⟨freshId, sq, sa, d, nc⟩])
    | none => (.error .unprocessable, qs)

/-- SQL `LIKE`/`ILIKE` pattern matching over character lists, case folded:
`%` matches any (possibly empty) sequence, `_` any single character, any
other pattern character matches case-insensitively.  The first argument is
fuel bounding the recursion; every recursive call shrinks the pattern or the
subject, so `ps.length + s.length` steps always suffice, and at fuel 0 only
the doubly-empty (trivially true) case can remain when started that way. -/
def ilikeGo : Nat → List Char → List Char → Bool
  | 0, ps, s => ps.isEmpty && s.isEmpty
  | _ + 1, [], [] => true
  | _ + 1, [], _ :: _ => false
  | fuel + 1, '%' :: ps, s =>
      ilikeGo fuel ps s ||
        (match s with
         | [] => false
         | _ :: s2 => ilikeGo fuel ('%' :: ps) s2)
  | fuel + 1, '_' :: ps, _ :: s => ilikeGo fuel ps s
  | _ + 1, _ :: _, [] => false
  | fuel + 1, p :: ps, c :: s => p.toLower == c.toLower && ilikeGo fuel ps s

/-- SQL case-insensitive pattern match of pattern `ps` against subject `s`. -/
def ilikeMatch (ps s : List Char) : Bool :=
  ilikeGo (ps.length + s.length) ps s

/-- Predicate on a row modelling
`Question.question.ilike('%' + term + '%')`. -/
def matchesSearch (term : String) (q : Question) : Bool :=
  ilikeMatch ("%" ++ term ++ "%").data q.question.data

/-- Response shape of `POST /questions/search`. -/
structure SearchResponse where
  questions : List FormattedQuestion
  total_questions : Nat
deriving DecidableEq, Repr

/-- The `POST /questions/search` handler `search_questions`: abort 422 on a
missing or empty `searchTerm`; filter all questions by the case-insensitive
`%term%` pattern; 404 when nothing matches; otherwise return the paginated
matches and `total_questions = len(Question.query.all())`, the count of the
whole table. -/
def search_questions (searchTerm : Option String) (pageArg : PageArg)
    (qs : List Question) : Except HttpError SearchResponse :=
  let term := searchTerm.getD ""
  if term = "" then
    .error .unprocessable
  else
    let found := qs.filter (matchesSearch term)
    if found.length == 0 then
      .error .notFound
    else
      .ok ⟨getPaginatedQuestions pageArg found QUESTIONS_PER_PAGE, qs.length⟩

/-- Response shape of `GET /categories/<int:id>/questions`. -/
structure CategoryQuestionsResponse where
  questions : List FormattedQuestion
  total_questions : Nat
  current_category : String
deriving DecidableEq, Repr

/-- The `GET /categories/<int:id>/questions` handler
`get_questions_by_category`: look the category up (`one_or_none`, ids being
unique keys); abort 422 when absent; otherwise filter questions by the
category id, paginate, and return the page, the matching count and the
category's label.  No 404 is raised on an empty page. -/
def get_questions_by_category (id : Int) (pageArg : PageArg)
    (cats : List Category) (qs : List Question) :
    Except HttpError CategoryQuestionsResponse :=
  match cats.find? (fun c => c.id == id) with
  | none => .error .unprocessable
  | some category =>
      let questions := qs.filter (fun q => q.category == id)
      let paginated := getPaginatedQuestions pageArg questions QUESTIONS_PER_PAGE
      .ok ⟨paginated, questions.length, category.type⟩

/-- Outcome of a `POST /quizzes` request. -/
inductive QuizOutcome where
  /-- Status 400 via `abort(400)`: a required body field was missing. -/
  | badRequest
  /-- Status 200 with the formatted question. -/
  | ok (q : FormattedQuestion)
  /-- An uncaught Python exception (`random.randint(0, -1)` on an empty
  candidate pool raises `ValueError`; the handler has no `try`). -/
  | fault
  /-- The supplied prefix of random draws ran out with the retry loop still
  running: the request has produced no response yet. -/
  | pending
deriving DecidableEq, Repr

/-- The candidate pool of the quiz picker: all questions when the requested
category id is 0, otherwise the questions of that category. -/
def candidatePool (catId : Int) (qs : List Question) : List Question :=
  if catId = 0 then qs else qs.filter (fun q => q.category == catId)

/-- The retry loop of `quiz_get_next_question`, driven by the explicit list
of random draws (each `random.randint(0, len-1)` call consumes one; indices
are reduced modulo the pool size, which changes nothing for the in-range
values `randint` produces).  Returns the first drawn question whose id is not
in `previous_questions`; `none` when the draws ran out first. -/
def quizLoop (pool : List Question) (prev : List Int) :
    List Nat → Option Question
  | [] => none
  | i :: rest =>
      match pool.get? (i % pool.length) with
      | none => none
      | some q => if q.id ∈ prev then quizLoop pool prev rest else some q

/-- The `POST /quizzes` handler `quiz_get_next_question`: abort 400 when
`previous_questions` or `quiz_category` is missing; build the candidate pool
from the category id; draw random candidates until one not previously asked
comes up, and return it formatted with 200.  An empty pool makes
`random.randint(0, -1)` raise, an uncaught fault. -/
def quiz_get_next_question (previous_questions : Option (List Int))
    (quiz_category : Option Int) (qs : List Question) (draws : List Nat) :
    QuizOutcome :=
  match previous_questions, quiz_category with
  | some prev, some catId =>
      let pool := candidatePool catId qs
      if pool.length == 0 then
        .fault
      else
        match quizLoop pool prev draws with
        | some q => .ok q.format
        | none => .pending
  | _, _ => .badRequest

/-- The quiz retry loop makes no progress on any draw budget: every finite
prefix of the random stream leaves the request still looping. -/
def quizAlwaysPending (previous_questions : List Int) (catId : Int)
    (qs : List Question) : Prop :=
  ∀ draws : List Nat,
    quiz_get_next_question (some previous_questions) (some catId) qs draws =
      QuizOutcome.pending

/-- A concrete fixture question of category 2 with id 1. -/
def exQ1 : Question := ⟨1, "What is a cat", "animal", JVal.num 1, 2⟩

/-- A concrete fixture question of category 2 with id 2. -/
def exQ2 : Question := ⟨2, "What is blue", "color", JVal.num 2, 2⟩

/-! Helper lemmas about the embedded operations. -/

/-- Inserting one element grows the sorted list by one. -/
theorem length_insertById (q : Question) (l : List Question) :
    (insertById q l).length = l.length + 1 := by
  induction l with
  | nil => rfl
  | cons x xs ih => by_cases h : q.id ≤ x.id <;> simp [insertById, h, ih]

/-- Ordering the store by id preserves the row count. -/
theorem length_sortById (l : List Question) : (sortById l).length = l.length := by
  induction l with
  | nil => rfl
  | cons x xs ih => simp [sortById, length_insertById, ih]

/-- A non-negative Python slice bound is the bound itself, clamped at the
length. -/
theorem pyBound_ofNat (n a : Nat) : pyBound n (a : Int) = min a n := by
  simp [pyBound]

/-- A Python slice with non-negative bounds `a` and `a + k` is drop-then-take. -/
theorem pySlice_ofNat (l : List α) (a k : Nat) :
    pySlice l (a : Int) ((a : Int) + (k : Int)) = (l.drop a).take k := by
  have hcast : ((a : Int) + (k : Int)) = (((a + k : Nat) : Int)) := by push_cast; ring
  rw [hcast]
  simp only [pySlice, pyBound_ofNat]
  rcases le_or_lt a l.length with h | h
  · rw [min_eq_left h, List.take_eq_take]
    simp only [List.length_drop]
    omega
  · rw [min_eq_right h.le, List.drop_length, List.drop_eq_nil_of_le h.le]
    simp

/-- For a positive page number `p`, the pagination helper is exactly the
drop-then-take of the formatted list. -/
theorem getPaginated_eq_drop_take (p : Nat) (hp : 1 ≤ p) (qs : List Question)
    (k : Nat) :
    getPaginatedQuestions (.int (p : Int)) qs k
      = ((qs.map Question.format).drop ((p - 1) * k)).take k := by
  simp only [getPaginatedQuestions, parsePage]
  have h1 : ((p : Int) - 1) * (k : Int) = (((p - 1) * k : Nat) : Int) := by
    push_cast [Nat.cast_sub hp]
    ring
  rw [h1, pySlice_ofNat]

/-- Every formatted question a page serves comes from a row of the input
list. -/
theorem mem_getPaginated {fq : FormattedQuestion} {pa : PageArg}
    {l : List Question} {k : Nat} (h : fq ∈ getPaginatedQuestions pa l k) :
    ∃ q ∈ l, Question.format q = fq := by
  simp only [getPaginatedQuestions, pySlice] at h
  have h2 := List.take_subset _ _ h
  have h3 := List.drop_subset _ _ h2
  exact List.mem_map.mp h3

/-- A question the quiz retry loop returns is drawn from the pool and its id
is not among the previously asked ones. -/
theorem quizLoop_mem_not_prev (pool : List Question) (prev : List Int) :
    ∀ draws q, quizLoop pool prev draws = some q → q ∈ pool ∧ q.id ∉ prev := by
  intro draws
  induction draws with
  | nil => intro q h; exact absurd h (by simp [quizLoop])
  | cons i rest ih =>
    intro q h
    rw [quizLoop] at h
    cases hg : pool.get? (i % pool.length) with
    | none => rw [hg] at h; exact absurd h (by simp)
    | some q0 =>
      rw [hg] at h
      by_cases hp : q0.id ∈ prev
      · simp only [hp, if_true] at h
        exact ih q h
      · simp only [hp, if_false] at h
        cases h
        exact ⟨List.get?_mem hg, hp⟩

/-- When every pool member's id is among the previously asked ones, no finite
prefix of draws makes the retry loop return: the loop never exits. -/
theorem quizLoop_none_of_all_excluded (pool : List Question) (prev : List Int)
    (hall : ∀ q ∈ pool, q.id ∈ prev) :
    ∀ draws, quizLoop pool prev draws = none := by
  intro draws
  induction draws with
  | nil => rfl
  | cons i rest ih =>
    rw [quizLoop]
    cases hg : pool.get? (i % pool.length) with
    | none => rfl
    | some q0 => simp only [hall q0 (List.get?_mem hg), if_true, ih]

/-! Claim theorems. -/

/-- C1: a successful POST /quizzes response with both fields present carries
a question whose id is not in previous_questions; with a nonzero
quiz_category id the question's category equals the requested id; and with
quiz_category id 0 the candidate pool is the whole question store. -/
theorem quizzes_returns_unseen_matching_question
    (prev : List Int) (catId : Int) (qs : List Question) (draws : List Nat)
    (fq : FormattedQuestion)
    (h : quiz_get_next_question (some prev) (some catId) qs draws
          = QuizOutcome.ok fq) :
    fq.id ∉ prev ∧ (catId ≠ 0 → fq.category = catId) ∧
      candidatePool 0 qs = qs := by
  have key : ∃ q, q ∈ candidatePool catId qs ∧ q.id ∉ prev ∧ q.format = fq := by
    simp only [quiz_get_next_question] at h
    by_cases hlen : ((candidatePool catId qs).length == 0) = true
    · rw [if_pos hlen] at h
      exact absurd h (by simp)
    · rw [if_neg hlen] at h
      cases hq : quizLoop (candidatePool catId qs) prev draws with
      | none => rw [hq] at h; exact absurd h (by simp)
      | some q =>
        rw [hq] at h
        obtain ⟨hmem, hnp⟩ := quizLoop_mem_not_prev _ _ _ _ hq
        refine ⟨q, hmem, hnp, ?_⟩
        simpa using h
  obtain ⟨q, hmem, hnp, hfq⟩ := key
  subst hfq
  refine ⟨hnp, ?_, by simp [candidatePool]⟩
  intro h0
  have hmem2 : q ∈ qs.filter (fun q => q.category == catId) := by
    simpa [candidatePool, h0] using hmem
  have hcat := (List.mem_filter.mp hmem2).2
  simpa [Question.format] using hcat

/-- Witness for C1: a concrete run in which the first draw is a previously
asked question and the second is not. -/
theorem quizzes_returns_unseen_matching_question_witness :
    exQ2.format.id ∉ [(1 : Int)] ∧
      ((2 : Int) ≠ 0 → exQ2.format.category = 2) ∧
      candidatePool 0 [exQ1, exQ2] = [exQ1, exQ2] :=
  quizzes_returns_unseen_matching_question [1] 2 [exQ1, exQ2] [0, 1]
    exQ2.format (by decide)

/-- Counterexample to C2 as stated: over the single-question candidate pool
of category 2 whose only id is already in previous_questions, every finite
draw budget leaves the retry loop still running — the loop has no
pool-exhaustion exit and never terminates. -/
theorem quiz_retry_loop_nonterminating_cx :
    quizAlwaysPending [1] 2 [exQ1] := by
  intro draws
  have hall : ∀ q ∈ candidatePool 2 [exQ1], q.id ∈ [(1 : Int)] := by decide
  have hnone := quizLoop_none_of_all_excluded _ _ hall draws
  simp only [quiz_get_next_question, hnone]
  decide

/-- C2 (amended): the retry loop is not bounded by pool exhaustion.  Over a
non-empty candidate pool, when every candidate's id is in
previous_questions, every finite prefix of the random stream leaves the
request still looping; the loop can terminate exactly in the remaining case:
when some candidate's id is not in previous_questions, some draw sequence
makes the request return 200. -/
theorem quiz_retry_loop_termination_characterization
    (prev : List Int) (catId : Int) (qs : List Question)
    (hpool : candidatePool catId qs ≠ []) :
    ((∀ q ∈ candidatePool catId qs, q.id ∈ prev) →
        ∀ draws, quiz_get_next_question (some prev) (some catId) qs draws
          = QuizOutcome.pending) ∧
    ((∃ q ∈ candidatePool catId qs, q.id ∉ prev) →
        ∃ draws fq, quiz_get_next_question (some prev) (some catId) qs draws
          = QuizOutcome.ok fq) := by
  have hlen : ((candidatePool catId qs).length == 0) = false := by
    simp [List.length_eq_zero, hpool]
  constructor
  · intro hall draws
    have hnone := quizLoop_none_of_all_excluded _ _ hall draws
    simp [quiz_get_next_question, hnone, hlen]
  · rintro ⟨q, hmem, hnp⟩
    obtain ⟨⟨n, hn⟩, hq⟩ := List.get_of_mem hmem
    refine ⟨[n], q.format, ?_⟩
    have hget : (candidatePool catId qs).get? (n % (candidatePool catId qs).length)
        = some q := by
      rw [Nat.mod_eq_of_lt hn, List.get?_eq_get hn, hq]
    have hloop : quizLoop (candidatePool catId qs) prev [n] = some q := by
      rw [quizLoop, hget]
      simp [hnp]
    simp [quiz_get_next_question, hloop, hlen]

/-- Witness for C2 (amended): both directions at concrete inputs — a fully
excluded pool still looping after a draw budget of zero, and a draw sequence
reaching a 200 once the pool has an unseen question. -/
theorem quiz_retry_loop_termination_characterization_witness :
    quiz_get_next_question (some [1]) (some 2) [exQ1] []
        = QuizOutcome.pending ∧
      ∃ draws fq, quiz_get_next_question (some []) (some 2) [exQ1] draws
        = QuizOutcome.ok fq :=
  ⟨(quiz_retry_loop_termination_characterization [1] 2 [exQ1] (by decide)).1
      (by decide) [],
    (quiz_retry_loop_termination_characterization [] 2 [exQ1] (by decide)).2
      (by decide)⟩

/-- Counterexample to C9 as stated: a request with both fields present but an
empty candidate pool (no stored question has category 1) makes
random.randint(0, -1) raise — an uncaught fault, not a 200 response. -/
theorem quizzes_empty_pool_cx :
    quiz_get_next_question (some []) (some 1) [] [] = QuizOutcome.fault ∧
      ¬ ∃ fq, quiz_get_next_question (some []) (some 1) [] []
          = QuizOutcome.ok fq := by
  refine ⟨by decide, ?_⟩
  rintro ⟨fq, hfq⟩
  have h0 : quiz_get_next_question (some []) (some 1) [] []
      = QuizOutcome.fault := by decide
  rw [h0] at hfq
  exact QuizOutcome.noConfusion hfq

/-- C9 (amended): POST /quizzes aborts with 400 exactly when
previous_questions or quiz_category is missing from the body; with both
present and an empty candidate pool the handler neither aborts nor responds
200 — it faults with an uncaught error. -/
theorem quizzes_error_model
    (prev? : Option (List Int)) (cat? : Option Int) (qs : List Question)
    (draws : List Nat) :
    (quiz_get_next_question prev? cat? qs draws = QuizOutcome.badRequest ↔
      (prev? = none ∨ cat? = none)) ∧
    (∀ prev catId, prev? = some prev → cat? = some catId →
      candidatePool catId qs = [] →
      quiz_get_next_question prev? cat? qs draws = QuizOutcome.fault) := by
  constructor
  · cases prev? with
    | none => simp [quiz_get_next_question]
    | some prev =>
      cases cat? with
      | none => simp [quiz_get_next_question]
      | some catId =>
        simp only [quiz_get_next_question]
        constructor
        · intro h
          by_cases hlen : ((candidatePool catId qs).length == 0) = true
          · rw [if_pos hlen] at h
            exact absurd h (by simp)
          · rw [if_neg hlen] at h
            cases hq : quizLoop (candidatePool catId qs) prev draws with
            | none => rw [hq] at h; exact absurd h (by simp)
            | some q => rw [hq] at h; exact absurd h (by simp)
        · rintro (h | h) <;> exact absurd h (by simp)
  · intro prev catId hp hc hpool
    subst hp
    subst hc
    simp [quiz_get_next_question, hpool]

/-- Witness for C9 (amended): the empty-pool fault at a concrete input — the
store holds only a category-2 question and category 5 is requested. -/
theorem quizzes_error_model_witness :
    quiz_get_next_question (some []) (some 5) [exQ1] [] = QuizOutcome.fault :=
  (quizzes_error_model (some []) (some 5) [exQ1] []).2 [] 5 rfl rfl (by decide)

/-- Counterexample to C3 as stated: with one stored question and a present
but non-integer page parameter, GET /questions answers 200 with the first
page — it does not fail with 404. -/
theorem page_not_integer_cx :
    get_questions PageArg.notInt [exQ1] []
        = Except.ok ⟨[exQ1.format], 1, []⟩ ∧
      get_questions PageArg.notInt [exQ1] [] ≠ Except.error HttpError.notFound := by
  decide

/-- C3 (amended): a present but non-integer page parameter does not fail the
request: the typed query-parameter lookup falls back to the default page 1,
so the request behaves exactly like page 1 and, whenever the store is
non-empty, succeeds with 200; a 404 arises only when the resulting slice is
empty. -/
theorem page_not_integer_defaults_to_page_one
    (qs : List Question) (cats : List Category) (hqs : qs ≠ []) :
    get_questions PageArg.notInt qs cats = get_questions (.int 1) qs cats ∧
      ∃ r, get_questions PageArg.notInt qs cats = Except.ok r := by
  refine ⟨rfl, ?_⟩
  have h0 : getPaginatedQuestions PageArg.notInt (sortById qs) QUESTIONS_PER_PAGE
      = getPaginatedQuestions (.int ((1 : Nat) : Int)) (sortById qs)
          QUESTIONS_PER_PAGE := rfl
  have h1 : getPaginatedQuestions PageArg.notInt (sortById qs) QUESTIONS_PER_PAGE
      = ((sortById qs).map Question.format).take 10 := by
    have h2 : getPaginatedQuestions (.int ((1 : Nat) : Int)) (sortById qs)
        QUESTIONS_PER_PAGE
        = (((sortById qs).map Question.format).drop ((1 - 1) * 10)).take 10 :=
      getPaginated_eq_drop_take 1 le_rfl (sortById qs) 10
    rw [h0, h2]
    simp
  have hlen : (((sortById qs).map Question.format).take 10).length ≠ 0 := by
    have hq0 : qs.length ≠ 0 := by simpa [List.length_eq_zero] using hqs
    simp only [List.length_take, List.length_map, length_sortById]
    omega
  have hcond : ¬ ((((sortById qs).map Question.format).take 10).length == 0) = true := by
    simpa [beq_iff_eq] using hlen
  simp only [get_questions]
  rw [h1, if_neg hcond]
  exact ⟨_, rfl⟩

/-- Witness for C3 (amended): the non-integer page parameter served like
page 1 over a concrete one-question store. -/
theorem page_not_integer_defaults_to_page_one_witness :
    get_questions PageArg.notInt [exQ2] [] = get_questions (.int 1) [exQ2] [] ∧
      ∃ r, get_questions PageArg.notInt [exQ2] [] = Except.ok r :=
  page_not_integer_defaults_to_page_one [exQ2] [] (by decide)

/-- C4: for a page p ≥ 1 whose slice is in range (the handler answers 200),
GET /questions serves exactly the sub-sequence
[(p-1)*10, (p-1)*10 + 10) of the id-ordered formatted question list — that
is min(10, remaining) questions — and total_questions is the count of all
stored questions, not just the page; and whenever the paginated slice is
empty the request fails with 404. -/
theorem get_questions_pagination_spec (p : Nat) (hp : 1 ≤ p)
    (qs : List Question) (cats : List Category) :
    (∀ r, get_questions (.int (p : Int)) qs cats = Except.ok r →
        r.questions
            = (((sortById qs).map Question.format).drop ((p - 1) * 10)).take 10 ∧
          r.questions.length = min 10 (qs.length - (p - 1) * 10) ∧
          r.total_questions = qs.length) ∧
    ((((sortById qs).map Question.format).drop ((p - 1) * 10)).take 10 = [] →
        get_questions (.int (p : Int)) qs cats
          = Except.error HttpError.notFound) := by
  have hkey : getPaginatedQuestions (.int (p : Int)) (sortById qs)
      QUESTIONS_PER_PAGE
      = (((sortById qs).map Question.format).drop ((p - 1) * 10)).take 10 :=
    getPaginated_eq_drop_take p hp (sortById qs) 10
  constructor
  · intro r hr
    simp only [get_questions] at hr
    rw [hkey] at hr
    by_cases hempty :
        ((((((sortById qs).map Question.format).drop ((p - 1) * 10)).take 10).length
          == 0) = true)
    · rw [if_pos hempty] at hr
      exact absurd hr (by simp)
    · rw [if_neg hempty] at hr
      injection hr with hr2
      subst hr2
      refine ⟨rfl, ?_, ?_⟩
      · simp [List.length_take, List.length_drop, List.length_map, length_sortById]
      · simp [length_sortById]
  · intro hempty
    simp only [get_questions]
    rw [hkey, hempty]
    rfl

/-- Witness for C4: page 1 over a two-question store answers the full slice,
and page 5 over a one-question store is empty and answers 404. -/
theorem get_questions_pagination_spec_witness :
    ((⟨[exQ1.format, exQ2.format], 2, []⟩ : QuestionsResponse).questions
        = (((sortById [exQ1, exQ2]).map Question.format).drop ((1 - 1) * 10)).take 10 ∧
      (⟨[exQ1.format, exQ2.format], 2, []⟩ : QuestionsResponse).questions.length
        = min 10 ([exQ1, exQ2].length - (1 - 1) * 10) ∧
      (⟨[exQ1.format, exQ2.format], 2, []⟩ : QuestionsResponse).total_questions
        = [exQ1, exQ2].length) ∧
    get_questions (.int ((5 : Nat) : Int)) [exQ1] []
      = Except.error HttpError.notFound :=
  ⟨(get_questions_pagination_spec 1 le_rfl [exQ1, exQ2] []).1
      ⟨[exQ1.format, exQ2.format], 2, []⟩ (by decide),
    (get_questions_pagination_spec 5 (by decide) [exQ1] []).2 (by decide)⟩

/-- C10: the pagination helper does not reject page numbers below 1 — page 0
always yields the empty slice, while page -1 over a question list longer
than 20 yields a non-empty slice taken from the end of the list (Python
negative-index slicing). -/
theorem paginate_pages_below_one (l0 l : List Question) (h : 20 < l.length) :
    getPaginatedQuestions (.int 0) l0 QUESTIONS_PER_PAGE = [] ∧
      getPaginatedQuestions (.int (-1)) l QUESTIONS_PER_PAGE
        = ((l.map Question.format).drop (l.length - 20)).take 10 ∧
      getPaginatedQuestions (.int (-1)) l QUESTIONS_PER_PAGE ≠ [] := by
  have hmain : getPaginatedQuestions (.int (-1)) l QUESTIONS_PER_PAGE
      = ((l.map Question.format).drop (l.length - 20)).take 10 := by
    simp only [getPaginatedQuestions, parsePage, pySlice, pyBound,
      QUESTIONS_PER_PAGE, List.length_map]
    norm_num
    have h1 : (max ((l.length : Int) + -20) 0).toNat = l.length - 20 := by omega
    have h2 : (max ((l.length : Int) + -10) 0).toNat = l.length - 10 := by omega
    have h3 : l.length - 10 - (l.length - 20) = 10 := by omega
    rw [h1, h2, h3]
  refine ⟨?_, hmain, ?_⟩
  · simp only [getPaginatedQuestions, parsePage, pySlice, pyBound,
      QUESTIONS_PER_PAGE, List.length_map]
    norm_num
  · rw [hmain]
    intro hnil
    have hlen := congrArg List.length hnil
    simp only [List.length_take, List.length_drop, List.length_map,
      List.length_nil] at hlen
    omega

/-- Witness for C10: a list of 21 copies of the fixture question. -/
theorem paginate_pages_below_one_witness :
    getPaginatedQuestions (.int 0) [exQ1] QUESTIONS_PER_PAGE = [] ∧
      getPaginatedQuestions (.int (-1)) (List.replicate 21 exQ1) QUESTIONS_PER_PAGE
        = (((List.replicate 21 exQ1).map Question.format).drop
            ((List.replicate 21 exQ1).length - 20)).take 10 ∧
      getPaginatedQuestions (.int (-1)) (List.replicate 21 exQ1)
        QUESTIONS_PER_PAGE ≠ [] :=
  paginate_pages_below_one [exQ1] (List.replicate 21 exQ1) (by decide)

/-- C5: DELETE /questions/id answers 200 with the success message and
removes the question exactly when the id resolves to a stored question; when
it does not resolve the response is 422 and the store is unchanged; and a
second delete of the same id always answers 422. -/
theorem delete_question_spec (id : Int) (qs : List Question) :
    ((∃ q ∈ qs, q.id = id) →
        delete_question id qs
          = (Except.ok "Question successfully deleted",
              qs.filter (fun q => q.id != id))) ∧
    ((∀ q ∈ qs, q.id ≠ id) →
        delete_question id qs = (Except.error HttpError.unprocessable, qs)) ∧
    (delete_question id (delete_question id qs).2).1
        = Except.error HttpError.unprocessable := by
  have hgone : ∀ l : List Question,
      (l.filter (fun q => q.id != id)).find? (fun q => q.id == id) = none := by
    intro l
    refine List.find?_eq_none.mpr ?_
    intro x hx
    have hne := (List.mem_filter.mp hx).2
    simpa using hne
  cases hfind : qs.find? (fun q => q.id == id) with
  | none =>
    have hnone : ∀ q ∈ qs, q.id ≠ id := by
      intro q hq
      have := List.find?_eq_none.mp hfind q hq
      simpa using this
    refine ⟨?_, ?_, ?_⟩
    · rintro ⟨q, hq, hid⟩
      exact absurd hid (hnone q hq)
    · intro _
      simp [delete_question, hfind]
    · simp [delete_question, hfind]
  | some q0 =>
    refine ⟨?_, ?_, ?_⟩
    · intro _
      simp [delete_question, hfind]
    · intro hall
      have hq0 := List.find?_some hfind
      have hmem := List.mem_of_find?_eq_some hfind
      exact absurd (by simpa using hq0) (hall q0 hmem)
    · simp [delete_question, hfind, hgone qs]

/-- Witness for C5: deleting id 1 from a one-question store succeeds, a
missing id 2 yields 422 unchanged, and the repeated delete yields 422. -/
theorem delete_question_spec_witness :
    delete_question 1 [exQ1]
        = (Except.ok "Question successfully deleted",
            [exQ1].filter (fun q => q.id != 1)) ∧
      delete_question 2 [exQ1] = (Except.error HttpError.unprocessable, [exQ1]) ∧
      (delete_question 1 (delete_question 1 [exQ1]).2).1
        = Except.error HttpError.unprocessable :=
  ⟨(delete_question_spec 1 [exQ1]).1 (by decide),
    (delete_question_spec 2 [exQ1]).2.1 (by decide),
    (delete_question_spec 1 [exQ1]).2.2⟩

/-- C6: POST /questions answers 422 and leaves the store unchanged when any
of the four fields is missing or empty; otherwise (here: for a well-typed
body, the storage layer being modelled from the spec) the new question with
those fields and the storage-assigned id is appended and the response is 201
with the creation message. -/
theorem create_question_spec (body : CreateBody) (qs : List Question)
    (freshId : Int) :
    ((jsonGetD body.question = .str "" ∨ jsonGetD body.answer = .str "" ∨
        jsonGetD body.difficulty = .str "" ∨ jsonGetD body.category = .str "") →
      create_question body qs freshId
        = (Except.error HttpError.unprocessable, qs)) ∧
    (∀ sq sa d nc, body.question = some (.str sq) → sq ≠ "" →
        body.answer = some (.str sa) → sa ≠ "" →
        body.difficulty = some d → d ≠ .str "" →
        body.category = some (.num nc) →
        create_question body qs freshId
          = (Except.ok "Question successfully created!",
              qs ++ [⟨freshId, sq, sa, d, nc⟩])) := by
  constructor
  · intro h
    have hc : (jsonGetD body.question == JVal.str "" ||
        jsonGetD body.answer == JVal.str "" ||
        jsonGetD body.difficulty == JVal.str "" ||
        jsonGetD body.category == JVal.str "") = true := by
      rcases h with h | h | h | h <;> simp [h]
    simp only [create_question, hc, if_true]
  · intro sq sa d nc hq hsq ha hsa hd hdne hc
    have hcond : (jsonGetD body.question == JVal.str "" ||
        jsonGetD body.answer == JVal.str "" ||
        jsonGetD body.difficulty == JVal.str "" ||
        jsonGetD body.category == JVal.str "") = false := by
      simp [jsonGetD, hq, ha, hd, hc, hsq, hsa, hdne]
    simp only [create_question, hcond, if_false]
    simp [jsonGetD, hq, ha, hd, hc, decodeFields]

/-- Witness for C6: a body with an empty answer is rejected with the store
unchanged, and a complete body is persisted with its fields. -/
theorem create_question_spec_witness :
    create_question ⟨some (.str "Why"), some (.str ""), some (.num 3), some (.num 2)⟩
        [exQ1] 7 = (Except.error HttpError.unprocessable, [exQ1]) ∧
      create_question ⟨some (.str "Why"), some (.str "Because"), some (.num 3),
          some (.num 2)⟩ [exQ1] 7
        = (Except.ok "Question successfully created!",
            [exQ1] ++ [⟨7, "Why", "Because", JVal.num 3, 2⟩]) :=
  ⟨(create_question_spec
        ⟨some (.str "Why"), some (.str ""), some (.num 3), some (.num 2)⟩
        [exQ1] 7).1 (by decide),
    (create_question_spec
        ⟨some (.str "Why"), some (.str "Because"), some (.num 3), some (.num 2)⟩
        [exQ1] 7).2 "Why" "Because" (.num 3) 2 rfl (by decide) rfl (by decide)
        rfl (by decide) rfl⟩

/-- C7: every successful POST /questions/search response reports
total_questions as the count of all stored questions system-wide — not the
match count — while the questions field is exactly the paginated list of
rows matching the case-insensitive wildcard-wrapped term. -/
theorem search_total_counts_all_questions (searchTerm : Option String)
    (pageArg : PageArg) (qs : List Question) (r : SearchResponse)
    (h : search_questions searchTerm pageArg qs = Except.ok r) :
    r.total_questions = qs.length ∧
      r.questions
        = getPaginatedQuestions pageArg
            (qs.filter (matchesSearch (searchTerm.getD ""))) QUESTIONS_PER_PAGE := by
  simp only [search_questions] at h
  by_cases h1 : searchTerm.getD "" = ""
  · rw [if_pos h1] at h
    exact absurd h (by simp)
  · rw [if_neg h1] at h
    by_cases h2 : (((qs.filter (matchesSearch (searchTerm.getD ""))).length == 0) = true)
    · rw [if_pos h2] at h
      exact absurd h (by simp)
    · rw [if_neg h2] at h
      injection h with h3
      subst h3
      exact ⟨rfl, rfl⟩

/-- Witness for C7: searching for "CAT" over a two-question store matches
one row yet reports the full count 2. -/
theorem search_total_counts_all_questions_witness :
    (⟨[exQ1.format], 2⟩ : SearchResponse).total_questions = [exQ1, exQ2].length ∧
      (⟨[exQ1.format], 2⟩ : SearchResponse).questions
        = getPaginatedQuestions PageArg.absent
            ([exQ1, exQ2].filter (matchesSearch ((some "CAT").getD "")))
            QUESTIONS_PER_PAGE :=
  search_total_counts_all_questions (some "CAT") PageArg.absent [exQ1, exQ2]
    ⟨[exQ1.format], 2⟩ (by decide)

/-- C8: GET /categories/id/questions answers 422 when no category has the
id; otherwise it answers 200 with exactly the paginated questions of that
category — each returned question's category equals the id —
total_questions equal to the count of questions of that category, and
current_category equal to the category's label; an empty page still answers
200 (with an empty list), never 404. -/
theorem questions_by_category_spec (id : Int) (pageArg : PageArg)
    (cats : List Category) (qs : List Question) :
    ((∀ c ∈ cats, c.id ≠ id) →
        get_questions_by_category id pageArg cats qs
          = Except.error HttpError.unprocessable) ∧
    (∀ c, cats.find? (fun c => c.id == id) = some c →
        get_questions_by_category id pageArg cats qs
            = Except.ok
                ⟨getPaginatedQuestions pageArg
                    (qs.filter (fun q => q.category == id)) QUESTIONS_PER_PAGE,
                  (qs.filter (fun q => q.category == id)).length, c.type⟩ ∧
          ∀ fq ∈ getPaginatedQuestions pageArg
              (qs.filter (fun q => q.category == id)) QUESTIONS_PER_PAGE,
            fq.category = id) := by
  constructor
  · intro hnone
    have hfind : cats.find? (fun c => c.id == id) = none := by
      refine List.find?_eq_none.mpr ?_
      intro c hc
      simpa using hnone c hc
    simp [get_questions_by_category, hfind]
  · intro c hfind
    refine ⟨by simp [get_questions_by_category, hfind], ?_⟩
    intro fq hfq
    obtain ⟨q, hqmem, hfmt⟩ := mem_getPaginated hfq
    have hcat := (List.mem_filter.mp hqmem).2
    rw [← hfmt]
    simpa [Question.format] using hcat

/-- Witness for C8: an absent category id answers 422, and a present one
answers the filtered page with its label. -/
theorem questions_by_category_spec_witness :
    get_questions_by_category 9 PageArg.absent [⟨2, "Art"⟩] [exQ1]
        = Except.error HttpError.unprocessable ∧
      get_questions_by_category 2 PageArg.absent [⟨2, "Art"⟩] [exQ1]
          = Except.ok
              ⟨getPaginatedQuestions PageArg.absent
                  ([exQ1].filter (fun q => q.category == 2)) QUESTIONS_PER_PAGE,
                ([exQ1].filter (fun q => q.category == 2)).length, "Art"⟩ ∧
        ∀ fq ∈ getPaginatedQuestions PageArg.absent
            ([exQ1].filter (fun q => q.category == 2)) QUESTIONS_PER_PAGE,
          fq.category = 2 :=
  ⟨(questions_by_category_spec 9 PageArg.absent [⟨2, "Art"⟩] [exQ1]).1 (by decide),
    (questions_by_category_spec 2 PageArg.absent [⟨2, "Art"⟩] [exQ1]).2
      ⟨2, "Art"⟩ (by decide)⟩

end Trivia
